import Mathlib

/-!
Verification of the chirpy authentication and authorization module.

This file is a shallow embedding of the Go source:
* `internal/auth/auth.go` — password hashing (Argon2id), JWT issuance and
  validation (golang-jwt v5, HS256);
* the HTTP handlers of the main package that perform authorization:
  `handlerDeleteChirp`, `handlerCreateChirp`, `handlerWebhook`.

Cryptographic primitives (HMAC-SHA256 signatures, Argon2id digests) are
embedded symbolically: a signature or digest is the tuple of the inputs that
produced it, and verification recomputes and compares.  This is the perfect
cryptography (Dolev-Yao) abstraction: two signatures are equal exactly when
key and signed payload are equal.

Go strings that are parsed into richer values (UUID-carrying subjects, JWT
compact serializations) are embedded as their parse results: an inductive
whose constructors separate "canonical form of a value" from "any other
string".  Time is an `Int` of Unix seconds, passed explicitly where the Go
code calls `time.Now()`.
-/

namespace Chirpy

/-- A value of `github.com/google/uuid`. The 128-bit content is abstracted to
a `Nat`; only identity (equality) of UUIDs matters to the code under
verification. -/
structure UUID where
  val : Nat
  deriving DecidableEq, Repr

/-- A Go string in a position where the code may parse it with `uuid.Parse`:
either the canonical string form `u.String()` of a UUID, or any other string
(which fails to parse). -/
inductive UUIDStr where
  | ofUUID (u : UUID)
  | notUUID (s : String)
  deriving DecidableEq, Repr

/-- Embedding of `userID.String()` (auth.go line 36). -/
def uuidString (u : UUID) : UUIDStr := .ofUUID u

/-- Embedding of `uuid.Parse` on such a string: the canonical form of `u`
parses back to `u`, anything else fails. -/
def uuidParse : UUIDStr → Option UUID
  | .ofUUID u => some u
  | .notUUID _ => none

/-- The `jwt.RegisteredClaims` populated by `MakeJWT` / read by `ValidateJWT`
(auth.go lines 32-37, 66-69): issuer, issued-at, expires-at (Unix seconds),
and the subject string. -/
structure RegisteredClaims where
  issuer : String
  issuedAt : Int
  expiresAt : Int
  subject : UUIDStr
  deriving DecidableEq, Repr

/-- A symbolic HMAC-SHA256 signature over the claims: in the perfect-MAC
abstraction a signature is determined by, and determines, the signing key and
the signed payload. -/
structure HS256Sig where
  key : String
  signed : RegisteredClaims
  deriving DecidableEq, Repr

/-- Signing with `jwt.SigningMethodHS256` keyed by `tokenSecret`
(auth.go lines 40-43). -/
def hs256Sign (key : String) (claims : RegisteredClaims) : HS256Sig :=
  ⟨key, claims⟩

/-- A structurally well-formed JWT compact serialization: its claims together
with the signature over them. -/
structure JWT where
  claims : RegisteredClaims
  sig : HS256Sig
  deriving DecidableEq, Repr

/-- A Go string in a token position: either a well-formed JWT compact
serialization, or any other string (on which `jwt.ParseWithClaims` fails with
a malformed-token error before any signature or claims check). -/
inductive TokenStr where
  | jwt (t : JWT)
  | notJWT (s : String)
  deriving DecidableEq, Repr

/-- Embedding of `MakeJWT(userID, tokenSecret, expiresIn)` (auth.go lines
30-49).  `now` is the value of `time.Now().UTC()` truncated to seconds (the
numeric-date convention of the library); the claims are
issuer `"chirpy-access"`, issued-at `now`, expires-at `now + expiresIn`,
subject `userID.String()`, signed with HS256 under `tokenSecret`. -/
def MakeJWT (userID : UUID) (tokenSecret : String) (expiresIn : Int)
    (now : Int) : TokenStr :=
  let claims : RegisteredClaims :=
    { issuer := "chirpy-access"
      issuedAt := now
      expiresAt := now + expiresIn
      subject := uuidString userID }
  .jwt { claims := claims, sig := hs256Sign tokenSecret claims }

/-- The error classes `ValidateJWT` can return: a malformed compact
serialization, a bad signature (`jwt.ErrTokenSignatureInvalid`), an expired
token (`jwt.ErrTokenExpired`), or a subject that `uuid.Parse` rejects. -/
inductive JWTError where
  | tokenMalformed
  | signatureInvalid
  | tokenExpired
  | subjectInvalid
  deriving DecidableEq, Repr

/-- Embedding of `ValidateJWT(tokenString, tokenSecret)` (auth.go lines
52-78).  `jwt.ParseWithClaims` with a constant keyfunc and default parser
options: it verifies the HS256 signature first, then validates the registered
claims — of which only `exp` is present and checked; the default validator
requires the current time to be strictly before expires-at (zero leeway) and
does not check the issuer.  On success the wrapper parses the subject with
`uuid.Parse`. -/
def ValidateJWT (tokenString : TokenStr) (tokenSecret : String)
    (now : Int) : Except JWTError UUID :=
  match tokenString with
  | .notJWT _ => .error .tokenMalformed
  | .jwt t =>
    if t.sig = hs256Sign tokenSecret t.claims then
      if now < t.claims.expiresAt then
        match uuidParse t.claims.subject with
        | some u => .ok u
        | none => .error .subjectInvalid
      else .error .tokenExpired
    else .error .signatureInvalid

/-- The cost parameters of `github.com/alexedwards/argon2id`; the values of
`argon2id.DefaultParams` are used by `HashPassword` (auth.go line 13). -/
structure Argon2Params where
  memory : Nat
  iterations : Nat
  parallelism : Nat
  saltLength : Nat
  keyLength : Nat
  deriving DecidableEq, Repr

/-- `argon2id.DefaultParams`: 64 MiB memory, 1 iteration, 2 lanes, 16-byte
salt, 32-byte key. -/
def argon2idDefaultParams : Argon2Params :=
  { memory := 65536, iterations := 1, parallelism := 2,
    saltLength := 16, keyLength := 32 }

/-- A symbolic Argon2id digest: in the perfect-hash abstraction it is
determined by, and determines, the cost parameters, the salt and the
password. -/
structure Argon2Key where
  params : Argon2Params
  salt : Nat
  password : String
  deriving DecidableEq, Repr

/-- Deriving the Argon2id key from parameters, salt and password. -/
def argon2idKey (params : Argon2Params) (salt : Nat)
    (password : String) : Argon2Key :=
  ⟨params, salt, password⟩

/-- The parsed content of an encoded Argon2id hash string
(`$argon2id$v=19$m=...,t=...,p=...$salt$key`): the parameters and salt are
embedded in the encoding next to the derived key, so verification needs no
external parameter store. -/
structure Argon2Hash where
  params : Argon2Params
  salt : Nat
  key : Argon2Key
  deriving DecidableEq, Repr

/-- `argon2id.CreateHash(password, params)` with the random salt made an
explicit argument: derive the key and encode parameters, salt and key. -/
def argon2idCreateHash (password : String) (params : Argon2Params)
    (salt : Nat) : Argon2Hash :=
  { params := params, salt := salt,
    key := argon2idKey params salt password }

/-- `argon2id.ComparePasswordAndHash(password, hash)`: re-derive the key from
the parameters and salt embedded in the hash and compare (the library uses
`subtle.ConstantTimeCompare`; equality is the observable result). -/
def argon2idComparePasswordAndHash (password : String)
    (hash : Argon2Hash) : Bool :=
  argon2idKey hash.params hash.salt password = hash.key

/-- The only failure of `argon2id.CreateHash`: the crypto/rand source failing
while drawing the salt.  Password content never causes a failure. -/
inductive HashError where
  | rngFailure
  deriving DecidableEq, Repr

/-- Embedding of `HashPassword` (auth.go lines 12-18).  The salt drawn from
crypto/rand is an explicit input: `none` models an RNG read failure (the
only error path); otherwise the hash is created with
`argon2id.DefaultParams`. -/
def HashPassword (password : String) (randomSalt : Option Nat) :
    Except HashError Argon2Hash :=
  match randomSalt with
  | none => .error .rngFailure
  | some salt => .ok (argon2idCreateHash password argon2idDefaultParams salt)

/-- Embedding of `CheckPasswordHash` (auth.go lines 21-27).  The library's
error return arises only from a malformed hash encoding; `Argon2Hash` is the
parsed form of a well-formed encoding, so the comparison is total here. -/
def CheckPasswordHash (password : String) (hash : Argon2Hash) : Bool :=
  argon2idComparePasswordAndHash password hash

/-- The error classes of bearer-token extraction. -/
inductive BearerError where
  | missingHeader
  | malformedHeader
  | emptyToken
  deriving DecidableEq, Repr

/-- Trimming the whitespace surrounding a character sequence (the behavior
of Go's `strings.TrimSpace` on the token remainder). -/
def trimChars (l : List Char) : List Char :=
  ((l.dropWhile Char.isWhitespace).reverse.dropWhile Char.isWhitespace).reverse

/-- Modelled from the spec: `auth.GetBearerToken(headers)` is called at every
protected handler but its definition is not in the source tree.  Per the
spec it reads the `Authorization` header (the empty string models an absent
header, as `http.Header.Get` returns `""` for a missing key) and fails with
`MissingHeader` if absent, `MalformedHeader` if the value does not start
with the literal `"Bearer "`, `EmptyToken` if the remainder after trimming
surrounding whitespace is empty; otherwise it returns the trimmed token
substring.  Strings are handled through their character lists (so the check
for the 7-character `"Bearer "` and the drop of it are by characters). -/
def GetBearerToken (authorization : String) : Except BearerError String :=
  if authorization = "" then .error .missingHeader
  else if List.isPrefixOf "Bearer ".data authorization.data then
    let token := trimChars (authorization.data.drop 7)
    if token = [] then .error .emptyToken
    else .ok ⟨token⟩
  else .error .malformedHeader

/-- A row of the `chirps` table as the handlers read it (`GetChirpByID`
returns id, body and owning user id; timestamps are irrelevant to every
verified property and omitted). -/
structure ChirpRec where
  id : UUID
  userID : UUID
  body : String
  deriving DecidableEq, Repr

/-- A row of the `users` table as the webhook handler touches it. -/
structure UserRec where
  id : UUID
  email : String
  isChirpyRed : Bool
  deriving DecidableEq, Repr

/-- The relational store the handlers mutate (the `database.Queries`
collaborator): the chirps and users tables. -/
structure DB where
  chirps : List ChirpRec
  users : List UserRec
  deriving DecidableEq, Repr

/-- `cfg.db.GetChirpByID(ctx, chirpID)`: the row with that primary key, or
not-found. -/
def getChirpByID (db : DB) (chirpID : UUID) : Option ChirpRec :=
  db.chirps.find? (fun c => c.id == chirpID)

/-- `cfg.db.DeleteChirp(ctx, chirpID)`: remove the row with that id. -/
def deleteChirp (db : DB) (chirpID : UUID) : DB :=
  { db with chirps := db.chirps.filter (fun c => c.id != chirpID) }

/-- `cfg.db.CreateChirp(ctx, {Body, UserID})`: insert a row whose id the
database generates; the fresh id is an explicit argument. -/
def createChirp (db : DB) (newID : UUID) (body : String)
    (userID : UUID) : ChirpRec × DB :=
  let row : ChirpRec := { id := newID, userID := userID, body := body }
  (row, { db with chirps := db.chirps ++ [row] })

/-- `cfg.db.UpgradeUserToChirpyRed(ctx, userID)`: set `is_chirpy_red` on the
row with that id; `none` is the not-found error the query reports when no
such user exists (mapped to 404 by the handler). -/
def upgradeUserToChirpyRed (db : DB) (userID : UUID) : Option DB :=
  if db.users.any (fun u => u.id == userID) then
    some { db with
      users := db.users.map (fun u =>
        if u.id == userID then { u with isChirpyRed := true } else u) }
  else none

/-- The `Authorization` header of a request as the protected handlers
consume it through `auth.GetBearerToken`: absent, present but not a
well-formed bearer header (extraction fails; the spec's malformed-header and
empty-token failures both land here, and the handlers discard which), or a
bearer header carrying a token string. -/
inductive AuthHeader where
  | missing
  | malformed (s : String)
  | bearer (token : TokenStr)
  deriving DecidableEq, Repr

/-- `auth.GetBearerToken(r.Header)` as seen by the handlers, over the
symbolic token alphabet: the extraction outcome determined by the header's
shape. -/
def getBearerTokenH : AuthHeader → Except BearerError TokenStr
  | .missing => .error .missingHeader
  | .malformed _ => .error .malformedHeader
  | .bearer t => .ok t

/-- The fields of `apiConfig` the verified handlers read. -/
structure ApiConfig where
  jwtSecret : String
  deriving DecidableEq, Repr

/-- A handler's observable outcome: the HTTP status it writes and the store
it leaves behind. -/
structure HandlerResult where
  status : Nat
  db : DB
  deriving DecidableEq, Repr

/-- Embedding of `handlerDeleteChirp` (source lines 428-472): bearer
extraction (failure → 401), JWT validation (failure → 401), path-parameter
UUID parse (failure → 400), chirp lookup (not found → 404), ownership check
(mismatch → 403), then the delete and 204.  The store itself never fails in
the model, so the 500 branch of `DeleteChirp` does not arise. -/
def handlerDeleteChirp (cfg : ApiConfig) (db : DB) (authHeader : AuthHeader)
    (chirpIDString : UUIDStr) (now : Int) : HandlerResult :=
  match getBearerTokenH authHeader with
  | .error _ => ⟨401, db⟩
  | .ok token =>
    match ValidateJWT token cfg.jwtSecret now with
    | .error _ => ⟨401, db⟩
    | .ok userID =>
      match uuidParse chirpIDString with
      | none => ⟨400, db⟩
      | some chirpID =>
        match getChirpByID db chirpID with
        | none => ⟨404, db⟩
        | some dbChirp =>
          if dbChirp.userID ≠ userID then ⟨403, db⟩
          else ⟨204, deleteChirp db chirpID⟩

/-- The profanity set of `cleanProfanity` (source lines 557-561). -/
def badWords : List String := ["kerfuffle", "sharbert", "fornax"]

/-- Embedding of `cleanProfanity` (source lines 556-572): split on single
spaces, replace any word whose lowercasing is in the set by `"****"`,
rejoin. -/
def cleanProfanity (text : String) : String :=
  let words := text.splitOn " "
  String.intercalate " "
    (words.map (fun w => if badWords.contains w.toLower then "****" else w))

/-- Embedding of `handlerCreateChirp` (source lines 259-314): bearer
extraction (failure → 401), JWT validation (failure → 401), body decode
(failure → 400; the decoded body is `Option String`), the 140-byte length
check (→ 400), profanity cleaning, then the insert and 201.  `newID` is the
id the database generates for the inserted row. -/
def handlerCreateChirp (cfg : ApiConfig) (db : DB) (authHeader : AuthHeader)
    (body : Option String) (newID : UUID) (now : Int) : HandlerResult :=
  match getBearerTokenH authHeader with
  | .error _ => ⟨401, db⟩
  | .ok token =>
    match ValidateJWT token cfg.jwtSecret now with
    | .error _ => ⟨401, db⟩
    | .ok userID =>
      match body with
      | none => ⟨400, db⟩
      | some b =>
        if 140 < b.utf8ByteSize then ⟨400, db⟩
        else ⟨201, (createChirp db newID (cleanProfanity b) userID).2⟩

/-- The credential-bearing headers a request can carry.  `handlerWebhook`
never reads them — they appear as an argument exactly to state that. -/
structure RequestHeaders where
  authorization : Option String
  apiKey : Option String
  deriving DecidableEq, Repr

/-- The decoded webhook body (source lines 495-500): the event name and the
user id in its data. -/
structure WebhookEvent where
  event : String
  userID : UUID
  deriving DecidableEq, Repr

/-- Embedding of `handlerWebhook` (source lines 494-525): decode the body
(failure → 400); any event other than `"user.upgraded"` → 204 with no
mutation; otherwise upgrade the user (query not-found error → 404) and
204.  The handler performs no header read of any kind — no bearer token and
no API key. -/
def handlerWebhook (headers : RequestHeaders) (db : DB)
    (body : Option WebhookEvent) : HandlerResult :=
  match body with
  | none => ⟨400, db⟩
  | some params =>
    if params.event ≠ "user.upgraded" then ⟨204, db⟩
    else
      match upgradeUserToChirpyRed db params.userID with
      | none => ⟨404, db⟩
      | some db2 => ⟨204, db2⟩

end Chirpy

namespace Chirpy

/-- C1: issuing then validating with the same key, before expiry, returns the
subject. -/
theorem validateJWT_makeJWT_roundtrip (s : UUID) (k : String) (t : Int)
    (now now' : Int) (ht : 0 < t) (hbefore : now' < now + t) :
    ValidateJWT (MakeJWT s k t now) k now' = .ok s := by
  simp [MakeJWT, ValidateJWT, uuidString, uuidParse, hbefore]

theorem validateJWT_makeJWT_roundtrip_witness :
    ValidateJWT (MakeJWT ⟨7⟩ "secret" 3600 1000) "secret" 1000 = .ok ⟨7⟩ :=
  validateJWT_makeJWT_roundtrip ⟨7⟩ "secret" 3600 1000 1000 (by decide)
    (by decide)

/-- C4: validation never consults the issuer claim.  Any token whose
signature verifies under the given key, whose expiry is in the future and
whose subject is the canonical form of a UUID is accepted, whatever string
its issuer field holds — in particular issuers other than the
`"chirpy-access"` label written by `MakeJWT`. -/
theorem validateJWT_ignores_issuer (issuer : String) (iat exp : Int)
    (u : UUID) (k : String) (now : Int) (hexp : now < exp) :
    ValidateJWT
      (.jwt { claims := { issuer := issuer, issuedAt := iat,
                          expiresAt := exp, subject := .ofUUID u },
              sig := hs256Sign k { issuer := issuer, issuedAt := iat,
                                   expiresAt := exp, subject := .ofUUID u } })
      k now = .ok u := by
  simp [ValidateJWT, uuidParse, hexp]

theorem validateJWT_ignores_issuer_witness :
    ValidateJWT
      (.jwt { claims := { issuer := "someone-else", issuedAt := 0,
                          expiresAt := 10, subject := .ofUUID ⟨3⟩ },
              sig := hs256Sign "k" { issuer := "someone-else", issuedAt := 0,
                                     expiresAt := 10,
                                     subject := .ofUUID ⟨3⟩ } })
      "k" 5 = .ok ⟨3⟩ :=
  validateJWT_ignores_issuer "someone-else" 0 10 ⟨3⟩ "k" 5 (by decide)

/-- C5: a token issued under key `k1` fails validation under any different
key `k2`, with a signature error; no user id is produced. -/
theorem validateJWT_wrong_key (s : UUID) (k1 k2 : String) (t : Int)
    (now now' : Int) (hk : k2 ≠ k1) :
    ValidateJWT (MakeJWT s k1 t now) k2 now' = .error .signatureInvalid := by
  simp only [MakeJWT, ValidateJWT]
  rw [if_neg]
  intro h
  exact hk (congrArg HS256Sig.key h.symm)

theorem validateJWT_wrong_key_witness :
    ValidateJWT (MakeJWT ⟨7⟩ "right-key" 3600 1000) "wrong-key" 1000
      = .error .signatureInvalid :=
  validateJWT_wrong_key ⟨7⟩ "right-key" "wrong-key" 3600 1000 1000 (by decide)

/-- C6: validation fails with the expiry error whenever the validation time
is at or after the token's expires-at (`now + t`); in particular a token
issued with a negative ttl is already expired at issuance time. -/
theorem validateJWT_expired (s : UUID) (k : String) (t : Int)
    (now now' : Int) (hexp : now + t ≤ now') :
    ValidateJWT (MakeJWT s k t now) k now' = .error .tokenExpired := by
  simp [MakeJWT, ValidateJWT, not_lt.mpr hexp]

theorem validateJWT_expired_witness :
    ValidateJWT (MakeJWT ⟨7⟩ "secret" (-3600) 1000) "secret" 1000
      = .error .tokenExpired :=
  validateJWT_expired ⟨7⟩ "secret" (-3600) 1000 1000 (by decide)

/-- C7: for every password — the empty string included — and every
successfully drawn salt, hashing succeeds (failure is only ever the RNG, not
password content) and verifying the password against the produced hash
returns `true`. -/
theorem checkPasswordHash_hashPassword (p : String) (salt : Nat) :
    HashPassword p (some salt)
        = .ok (argon2idCreateHash p argon2idDefaultParams salt) ∧
      CheckPasswordHash p (argon2idCreateHash p argon2idDefaultParams salt)
        = true := by
  constructor
  · rfl
  · simp [CheckPasswordHash, argon2idComparePasswordAndHash,
      argon2idCreateHash]

/-- C8: the bearer-token extractor's complete case analysis: missing header,
value not starting with `"Bearer "`, all-whitespace remainder, and the
successful trimmed-token return. -/
theorem getBearerToken_cases (a : String) :
    (a = "" → GetBearerToken a = .error .missingHeader) ∧
      (a ≠ "" → ¬ List.isPrefixOf "Bearer ".data a.data
        → GetBearerToken a = .error .malformedHeader) ∧
      (List.isPrefixOf "Bearer ".data a.data → trimChars (a.data.drop 7) = []
        → GetBearerToken a = .error .emptyToken) ∧
      (List.isPrefixOf "Bearer ".data a.data → trimChars (a.data.drop 7) ≠ []
        → GetBearerToken a = .ok ⟨trimChars (a.data.drop 7)⟩) := by
  have hne : (List.isPrefixOf "Bearer ".data a.data = true) → a ≠ "" := by
    intro hs he
    rw [he] at hs
    exact absurd hs (by decide)
  refine ⟨fun h => by simp [GetBearerToken, h], fun h1 h2 => ?_,
    fun h1 h2 => ?_, fun h1 h2 => ?_⟩
  · simp [GetBearerToken, h1, h2]
  · simp [GetBearerToken, hne h1, h1, h2]
  · simp [GetBearerToken, hne h1, h1, h2]

theorem getBearerToken_cases_witness :
    GetBearerToken "" = .error .missingHeader ∧
      GetBearerToken "Basic xyz" = .error .malformedHeader ∧
      GetBearerToken "Bearer   " = .error .emptyToken ∧
      GetBearerToken "Bearer abc123" = .ok "abc123" := by
  refine ⟨(getBearerToken_cases "").1 rfl,
    (getBearerToken_cases "Basic xyz").2.1 (by decide) (by decide),
    (getBearerToken_cases "Bearer   ").2.2.1 (by decide) (by decide), ?_⟩
  have h := (getBearerToken_cases "Bearer abc123").2.2.2 (by decide)
    (by decide)
  exact h.trans (congrArg Except.ok (by decide))

/-- C2: on an authenticated delete request by user `u` for chirp id `c`:
a missing chirp answers 404 with the store untouched; an existing chirp
owned by someone else answers 403 — not 404 — with the store untouched;
owner `u`'s own chirp is deleted with 204; and the store changes only in
the owner-matches case. -/
theorem handlerDeleteChirp_ownership (cfg : ApiConfig) (db : DB)
    (tok : TokenStr) (now : Int) (u c : UUID)
    (hauth : ValidateJWT tok cfg.jwtSecret now = .ok u) :
    (getChirpByID db c = none →
        handlerDeleteChirp cfg db (.bearer tok) (.ofUUID c) now = ⟨404, db⟩) ∧
      (∀ ch, getChirpByID db c = some ch → ch.userID ≠ u →
        handlerDeleteChirp cfg db (.bearer tok) (.ofUUID c) now = ⟨403, db⟩) ∧
      (∀ ch, getChirpByID db c = some ch → ch.userID = u →
        handlerDeleteChirp cfg db (.bearer tok) (.ofUUID c) now
          = ⟨204, deleteChirp db c⟩) ∧
      ((handlerDeleteChirp cfg db (.bearer tok) (.ofUUID c) now).db ≠ db →
        ∃ ch, getChirpByID db c = some ch ∧ ch.userID = u) := by
  refine ⟨fun hnone => ?_, fun ch hch hne => ?_, fun ch hch heq => ?_,
    fun hchanged => ?_⟩
  · simp [handlerDeleteChirp, getBearerTokenH, hauth, uuidParse, hnone]
  · simp [handlerDeleteChirp, getBearerTokenH, hauth, uuidParse, hch, hne]
  · simp [handlerDeleteChirp, getBearerTokenH, hauth, uuidParse, hch, heq]
  · rcases hc : getChirpByID db c with _ | ch
    · exact absurd (by simp [handlerDeleteChirp, getBearerTokenH, hauth,
        uuidParse, hc]) hchanged
    · by_cases heq : ch.userID = u
      · exact ⟨ch, hc.symm ▸ rfl, heq⟩
      · exact absurd (by simp [handlerDeleteChirp, getBearerTokenH, hauth,
          uuidParse, hc, heq]) hchanged

theorem handlerDeleteChirp_ownership_witness :
    handlerDeleteChirp ⟨"k"⟩ ⟨[⟨⟨5⟩, ⟨2⟩, "hi"⟩], []⟩
        (.bearer (MakeJWT ⟨1⟩ "k" 3600 0)) (.ofUUID ⟨5⟩) 0
      = ⟨403, ⟨[⟨⟨5⟩, ⟨2⟩, "hi"⟩], []⟩⟩ :=
  (handlerDeleteChirp_ownership ⟨"k"⟩ ⟨[⟨⟨5⟩, ⟨2⟩, "hi"⟩], []⟩
      (MakeJWT ⟨1⟩ "k" 3600 0) 0 ⟨1⟩ ⟨5⟩ rfl).2.1
    ⟨⟨5⟩, ⟨2⟩, "hi"⟩ rfl (by decide)

/-- C3: whenever bearer extraction fails (missing or malformed header) or
JWT validation fails (malformed, forged, expired, or bad-subject token),
both protected mutating handlers answer 401 with the store untouched — for
every store, so the outcome precedes and is independent of any resource
lookup, existence or ownership check. -/
theorem auth_failure_precedes_resource_access (cfg : ApiConfig)
    (hdr : AuthHeader) (now : Int)
    (hfail : (∃ e, getBearerTokenH hdr = .error e) ∨
      (∃ t e, getBearerTokenH hdr = .ok t ∧
        ValidateJWT t cfg.jwtSecret now = .error e)) :
    ∀ (db : DB) (path : UUIDStr) (body : Option String) (newID : UUID),
      handlerDeleteChirp cfg db hdr path now = ⟨401, db⟩ ∧
        handlerCreateChirp cfg db hdr body newID now = ⟨401, db⟩ := by
  intro db path body newID
  rcases hfail with ⟨e, he⟩ | ⟨t, e, hok, he⟩
  · exact ⟨by simp [handlerDeleteChirp, he], by simp [handlerCreateChirp, he]⟩
  · exact ⟨by simp [handlerDeleteChirp, hok, he],
      by simp [handlerCreateChirp, hok, he]⟩

theorem auth_failure_precedes_resource_access_witness :
    handlerDeleteChirp ⟨"k"⟩ ⟨[⟨⟨5⟩, ⟨2⟩, "hi"⟩], []⟩
        (.bearer (.notJWT "garbage")) (.ofUUID ⟨5⟩) 0
      = ⟨401, ⟨[⟨⟨5⟩, ⟨2⟩, "hi"⟩], []⟩⟩ ∧
      handlerCreateChirp ⟨"k"⟩ ⟨[⟨⟨5⟩, ⟨2⟩, "hi"⟩], []⟩
        (.bearer (.notJWT "garbage")) (some "hello") ⟨9⟩ 0
      = ⟨401, ⟨[⟨⟨5⟩, ⟨2⟩, "hi"⟩], []⟩⟩ :=
  auth_failure_precedes_resource_access ⟨"k"⟩ (.bearer (.notJWT "garbage")) 0
    (Or.inr ⟨.notJWT "garbage", .tokenMalformed, rfl, rfl⟩)
    ⟨[⟨⟨5⟩, ⟨2⟩, "hi"⟩], []⟩ (.ofUUID ⟨5⟩) (some "hello") ⟨9⟩

/-- C9: the webhook handler reads no credential header: its response and
state change are identical under any two header assignments; every decoded
`"user.upgraded"` event for an existing user performs the upgrade with 204
and no API-key validation; every other event answers 204 with the store
untouched. -/
theorem handlerWebhook_ignores_credentials :
    (∀ (h1 h2 : RequestHeaders) (db : DB) (body : Option WebhookEvent),
        handlerWebhook h1 db body = handlerWebhook h2 db body) ∧
      (∀ (h : RequestHeaders) (db : DB) (ev : WebhookEvent) (db2 : DB),
        ev.event = "user.upgraded" →
        upgradeUserToChirpyRed db ev.userID = some db2 →
        handlerWebhook h db (some ev) = ⟨204, db2⟩) ∧
      (∀ (h : RequestHeaders) (db : DB) (ev : WebhookEvent),
        ev.event ≠ "user.upgraded" →
        handlerWebhook h db (some ev) = ⟨204, db⟩) := by
  refine ⟨fun h1 h2 db body => rfl, fun h db ev db2 hev hup => ?_,
    fun h db ev hev => ?_⟩
  · simp [handlerWebhook, hev, hup]
  · simp [handlerWebhook, hev]

theorem handlerWebhook_ignores_credentials_witness :
    handlerWebhook ⟨some "Bearer tkn", some "apikey1"⟩
        ⟨[], [⟨⟨4⟩, "a@b.c", false⟩]⟩ (some ⟨"user.upgraded", ⟨4⟩⟩)
      = ⟨204, ⟨[], [⟨⟨4⟩, "a@b.c", true⟩]⟩⟩ ∧
      handlerWebhook ⟨none, none⟩
        ⟨[], [⟨⟨4⟩, "a@b.c", false⟩]⟩ (some ⟨"user.downgraded", ⟨4⟩⟩)
      = ⟨204, ⟨[], [⟨⟨4⟩, "a@b.c", false⟩]⟩⟩ :=
  ⟨handlerWebhook_ignores_credentials.2.1 ⟨some "Bearer tkn", some "apikey1"⟩
      ⟨[], [⟨⟨4⟩, "a@b.c", false⟩]⟩ ⟨"user.upgraded", ⟨4⟩⟩
      ⟨[], [⟨⟨4⟩, "a@b.c", true⟩]⟩ rfl rfl,
    handlerWebhook_ignores_credentials.2.2 ⟨none, none⟩
      ⟨[], [⟨⟨4⟩, "a@b.c", false⟩]⟩ ⟨"user.downgraded", ⟨4⟩⟩ (by decide)⟩

end Chirpy
